import Mathlib

/-!
Verification of the request-scoped inference-and-artifact pipeline of
`app.py` (a Flask glaucoma-detection service), shallowly embedded in Lean.

Probabilities, confidences and file ages are modelled as rationals (the
Python code computes with IEEE doubles; every constant involved — 0.5,
100, 3600 — is exactly representable, and the claims under study are about
the exact arithmetic relations, so `ℚ` is the faithful abstraction).
External effects (image decoding, the Keras model call, matplotlib
rendering, `os.remove`) are modelled as explicit outcome parameters:
`Except`/`Bool` values saying whether the effect succeeded and with what
result, exactly where the Python code observes them through `try/except`.
-/

namespace GlaucomaApp

/-- Outcome triple returned by `model_predict` in `app.py`: the label
string, the confidence percentage, and the two-class probability vector
`preds = [Normal_prob, Glaucoma_prob]` (a 2-element numpy array in the
source, modelled as an ordered pair). -/
structure PredictResult where
  prediction : String
  confidence : ℚ
  preds : ℚ × ℚ
  deriving DecidableEq, Repr

/-- `model_predict(img_path, model)` from `app.py` (lines 76-104).
The single `try` block covers both `image.load_img` (decoding) and
`model.predict` (inference); `decode` is the outcome of the former and
`infer` the outcome of the latter (its scalar probability on success).
Any exception from either step falls to the same handler, which returns
`("Error", 0.0, [0.5, 0.5])`.  On success the threshold logic is
`if pred > 0.5` → `"Glaucoma"` with confidence `pred * 100`, else
`"Normal"` with confidence `(1 - pred) * 100`, and
`preds = [1 - pred, pred]`. -/
def model_predict (decode : Except String Unit) (infer : Except String ℚ) :
    PredictResult :=
  match decode with
  | .error _ => ⟨"Error", 0, (1/2, 1/2)⟩
  | .ok _ =>
    match infer with
    | .error _ => ⟨"Error", 0, (1/2, 1/2)⟩
    | .ok pred =>
      if 1/2 < pred then
        ⟨"Glaucoma", pred * 100, (1 - pred, pred)⟩
      else
        ⟨"Normal", (1 - pred) * 100, (1 - pred, pred)⟩

/-- C1: the decision engine maps `p > 0.5` to label "Glaucoma" with
confidence `p*100`, and `p ≤ 0.5` (including the tie `p = 0.5`) to label
"Normal" with confidence `(1-p)*100`. -/
theorem C1_decision_engine (p : ℚ) (h0 : 0 ≤ p) (h1 : p ≤ 1) :
    (1/2 < p →
      (model_predict (.ok ()) (.ok p)).prediction = "Glaucoma" ∧
      (model_predict (.ok ()) (.ok p)).confidence = p * 100) ∧
    (p ≤ 1/2 →
      (model_predict (.ok ()) (.ok p)).prediction = "Normal" ∧
      (model_predict (.ok ()) (.ok p)).confidence = (1 - p) * 100) ∧
    (p = 1/2 → (model_predict (.ok ()) (.ok p)).prediction = "Normal") := by
  refine ⟨fun h => ?_, fun h => ?_, fun h => ?_⟩
  · simp only [model_predict]; rw [if_pos h]; exact ⟨rfl, rfl⟩
  · simp only [model_predict]; rw [if_neg (not_lt.mpr h)]; exact ⟨rfl, rfl⟩
  · subst h
    simp only [model_predict]; rw [if_neg (lt_irrefl _)]

/-- Witness for C1 at the tie-break input `p = 1/2` and at `p = 9/10`. -/
theorem C1_decision_engine_witness :
    (model_predict (.ok ()) (.ok (1/2))).prediction = "Normal" ∧
    (model_predict (.ok ()) (.ok (1/2))).confidence = 50 ∧
    (model_predict (.ok ()) (.ok (9/10))).prediction = "Glaucoma" := by
  refine ⟨(C1_decision_engine (1/2) (by norm_num) (by norm_num)).2.2 rfl, ?_, ?_⟩
  · have h := (C1_decision_engine (1/2) (by norm_num) (by norm_num)).2.1 le_rfl
    rw [h.2]; norm_num
  · exact ((C1_decision_engine (9/10) (by norm_num) (by norm_num)).1
      (by norm_num)).1

/-- Round half to even at integer resolution, the tie rule of Python
builtin `round`. -/
def roundHalfEven (q : ℚ) : ℤ :=
  if q - ⌊q⌋ < 1/2 then ⌊q⌋
  else if 1/2 < q - ⌊q⌋ then ⌊q⌋ + 1
  else if 2 ∣ ⌊q⌋ then ⌊q⌋ else ⌊q⌋ + 1

/-- Python `round(x, 2)` as used in `round(confidence, 2)` at line 160 of
`app.py`. -/
def pyRound2 (q : ℚ) : ℚ := (roundHalfEven (q * 100) : ℚ) / 100

/-- `filename = timestamp + secure_filename(file.filename)` (line 127 of
`app.py`): the storage key of an uploaded artifact is the concatenation of
the request timestamp token, `datetime.now().strftime("%Y%m%d_%H%M%S_")`,
with the sanitised original filename.  `secure_filename` is external
(werkzeug); per the spec the filename reaching the lifecycle manager is
already sanitised, so the sanitised name is the input here. -/
def uploadKey (timestampToken sanitizedName : String) : String :=
  timestampToken ++ sanitizedName

/-- The pages the index route returns on a POST request: either
`render_template("index.html", error=msg)` or
`render_template("result.html", result={prediction, confidence, filename})`. -/
inductive Response where
  | indexError (msg : String)
  | resultPage (prediction : String) (confidence : ℚ) (filename : String)
  deriving DecidableEq, Repr

/-- What a POST to the index route leaves behind: the rendered response
and whether the uploaded artifact is still present in the store when the
request finishes. -/
structure IndexOutcome where
  response : Response
  uploadSaved : Bool
  deriving DecidableEq, Repr

/-- The POST branch of `index()` in `app.py` (lines 112-173).
`fileField` is `none` when `"image" not in request.files`, otherwise the
sanitised filename of the upload.  After saving the file under
`uploadKey`, the `try` block runs `model_predict` (which handles its own
exceptions, so it never raises) and then the matplotlib chart rendering,
whose success is `chartOk`; a rendering exception falls to the outer
`except`, which removes the uploaded file and returns the try-again error
page.  On success the result page carries the prediction, the confidence
rounded to 2 decimals, and the upload key.  The `cleanup_old_files()`
call at the start of the branch sweeps the shared store and is modelled
separately (`cleanup_old_files` below); it touches only artifacts from
earlier requests. -/
def index_post (fileField : Option String) (timestampToken : String)
    (decode : Except String Unit) (infer : Except String ℚ)
    (chartOk : Bool) : IndexOutcome :=
  match fileField with
  | none => ⟨.indexError "No file uploaded", false⟩
  | some fname =>
    if fname = "" then ⟨.indexError "No file selected", false⟩
    else
      let filename := uploadKey timestampToken fname
      let r := model_predict decode infer
      if chartOk then
        ⟨.resultPage r.prediction (pyRound2 r.confidence) filename, true⟩
      else
        ⟨.indexError "Error processing image. Please try again.", false⟩

/-- The claim of C2 formalised: every confidence produced on the success
path lies strictly above 50. -/
def confidenceStrictlyAbove50 : Prop :=
  ∀ p : ℚ, 0 ≤ p → p ≤ 1 → 50 < (model_predict (.ok ()) (.ok p)).confidence

/-- C2 counterexample: at the admissible model output `p = 1/2` the
produced confidence is exactly 50, not strictly above 50 as the claimed
interval `(50, 100]` requires. -/
theorem C2_counterexample : ¬ confidenceStrictlyAbove50 := by
  intro h
  have h50 := h (1/2) (by norm_num) (by norm_num)
  have hc : (model_predict (.ok ()) (.ok (1/2))).confidence = 50 := by
    simp only [model_predict]; rw [if_neg (lt_irrefl _)]; norm_num
  rw [hc] at h50
  exact lt_irrefl 50 h50

/-- C2 amended: for every model output `p` in `[0,1]` the confidence
equals `max(p, 1-p) * 100` and lies in the closed interval `[50, 100]`
(the lower bound 50 is attained, at `p = 1/2`). -/
theorem C2_amended (p : ℚ) (h0 : 0 ≤ p) (h1 : p ≤ 1) :
    (model_predict (.ok ()) (.ok p)).confidence = max p (1 - p) * 100 ∧
    50 ≤ (model_predict (.ok ()) (.ok p)).confidence ∧
    (model_predict (.ok ()) (.ok p)).confidence ≤ 100 := by
  by_cases h : 1/2 < p
  · simp only [model_predict]; rw [if_pos h]
    dsimp only
    refine ⟨?_, by linarith, by linarith⟩
    rw [max_eq_left (by linarith : 1 - p ≤ p)]
  · push_neg at h
    simp only [model_predict]; rw [if_neg (not_lt.mpr h)]
    dsimp only
    refine ⟨?_, by linarith, by linarith⟩
    rw [max_eq_right (by linarith : p ≤ 1 - p)]

/-- Witness for C2 amended at `p = 3/4`. -/
theorem C2_amended_witness :
    (model_predict (.ok ()) (.ok (3/4))).confidence = max (3/4) (1 - 3/4) * 100 ∧
    50 ≤ (model_predict (.ok ()) (.ok (3/4))).confidence ∧
    (model_predict (.ok ()) (.ok (3/4))).confidence ≤ 100 :=
  C2_amended (3/4) (by norm_num) (by norm_num)

/-- C3: when the classifier call raises, `model_predict` returns the
fallback `("Error", 0.0, [0.5, 0.5])`, and the index route still renders
a result page (response produced, failure not propagated). -/
theorem C3_classifier_failure (e tok fname : String) (hname : fname ≠ "") :
    model_predict (.ok ()) (.error e) = ⟨"Error", 0, (1/2, 1/2)⟩ ∧
    (index_post (some fname) tok (.ok ()) (.error e) true).response
      = .resultPage "Error" 0 (uploadKey tok fname) := by
  refine ⟨rfl, ?_⟩
  simp only [index_post, model_predict]
  rw [if_neg hname]
  have h0 : pyRound2 0 = 0 := by
    simp [pyRound2, roundHalfEven]
  simp [h0]

/-- Witness for C3 at a concrete exception and filename. -/
theorem C3_classifier_failure_witness :
    model_predict (.ok ()) (.error "OOM") = ⟨"Error", 0, (1/2, 1/2)⟩ ∧
    (index_post (some "scan.png") "20250101_120000_" (.ok ())
        (.error "OOM") true).response
      = .resultPage "Error" 0 (uploadKey "20250101_120000_" "scan.png") :=
  C3_classifier_failure "OOM" "20250101_120000_" "scan.png" (by decide)

/-- C9: the probability pair is the ordered vector `[1-p, p]` on every
successful prediction, its two entries sum to exactly 1 on every path,
and the classifier-failure fallback is `[0.5, 0.5]`. -/
theorem C9_class_probabilities :
    (∀ p : ℚ, (model_predict (.ok ()) (.ok p)).preds = (1 - p, p)) ∧
    (∀ (d : Except String Unit) (i : Except String ℚ),
      (model_predict d i).preds.1 + (model_predict d i).preds.2 = 1) ∧
    (∀ e : String, (model_predict (.ok ()) (.error e)).preds = (1/2, 1/2)) := by
  refine ⟨fun p => ?_, fun d i => ?_, fun e => rfl⟩
  · simp only [model_predict]; split <;> rfl
  · cases d with
    | error _ => norm_num [model_predict]
    | ok _ =>
      cases i with
      | error _ => norm_num [model_predict]
      | ok p =>
        simp only [model_predict]
        split <;> dsimp only <;> ring

/-- The claim of C4 formalised over the naming scheme of line 127: two
uploads arriving in the same clock second (hence with equal timestamp
tokens) and carrying identical sanitised filenames receive two distinct
storage keys. -/
def sameSecondSameNameDistinctKeys : Prop :=
  ∀ tok name k₁ k₂,
    k₁ = uploadKey tok name → k₂ = uploadKey tok name → k₁ ≠ k₂

/-- C4 counterexample: the key is a pure function of the second-resolution
timestamp token and the sanitised filename, so two same-second uploads of
`scan.png` both receive the key `20250101_120000_scan.png`. -/
theorem C4_counterexample : ¬ sameSecondSameNameDistinctKeys := fun h =>
  h "20250101_120000_" "scan.png" _ _ rfl rfl rfl

/-- C4 amended: within one clock second (one timestamp token), the keys of
two uploads are equal exactly when their sanitised filenames are equal; in
particular identical same-second filenames collide, and distinct keys are
guaranteed only when the sanitised filenames differ. -/
theorem C4_amended (tok n₁ n₂ : String) :
    uploadKey tok n₁ = uploadKey tok n₂ ↔ n₁ = n₂ := by
  constructor
  · intro h
    have hd := congrArg String.data h
    simp only [uploadKey, String.data_append] at hd
    exact String.ext (List.append_cancel_left hd)
  · intro h; rw [h]

/-- An artifact in the shared upload store as `cleanup_old_files` sees it:
its name, its modification time `os.path.getmtime(filepath)` in seconds,
and whether `os.remove` would succeed on it (`removable = false` models
the `OSError` swallowed at lines 67-68, e.g. a file currently in use). -/
structure StoredFile where
  name : String
  mtime : ℚ
  removable : Bool
  deriving DecidableEq, Repr

/-- One iteration of the loop body of `cleanup_old_files` (lines 58-68 of
`app.py`) on one file: when `current_time - getmtime > 3600` the code
attempts `os.remove`; an `OSError` from the removal is swallowed by the
inner `try`, so the file survives.  Returns the file exactly when it
survives the sweep. -/
def sweepFile (current_time : ℚ) (f : StoredFile) : Option StoredFile :=
  if 3600 < current_time - f.mtime then
    if f.removable then none else some f
  else some f

/-- `cleanup_old_files()` (lines 51-70 of `app.py`): visit every file in
the upload store and apply the per-file sweep; because each removal
failure is caught inside the loop, the loop always reaches every file.
Returns the store contents after the sweep. -/
def cleanup_old_files (current_time : ℚ) (store : List StoredFile) :
    List StoredFile :=
  store.filterMap (sweepFile current_time)

/-- The per-file sweep never replaces a file by a different one: if it
returns something, it returns its input. -/
theorem sweepFile_some_eq (current_time : ℚ) (f g : StoredFile)
    (h : sweepFile current_time f = some g) : g = f := by
  unfold sweepFile at h
  split at h
  · split at h
    · exact absurd h (by simp)
    · exact (Option.some_inj.mp h).symm
  · exact (Option.some_inj.mp h).symm

/-- C5: the sweep retains every artifact aged at most 3600 seconds,
deletes every removable artifact aged strictly more than 3600 seconds
regardless of what else is in the store (so a deletion failure on one
artifact never prevents the others), and acts on each file independently
of its neighbours. -/
theorem C5_eviction (current_time : ℚ) :
    (∀ store f, f ∈ store → current_time - f.mtime ≤ 3600 →
      f ∈ cleanup_old_files current_time store) ∧
    (∀ store f, f ∈ store → 3600 < current_time - f.mtime →
      f.removable = true → f ∉ cleanup_old_files current_time store) ∧
    (∀ s₁ g s₂, cleanup_old_files current_time (s₁ ++ g :: s₂) =
      cleanup_old_files current_time s₁ ++ cleanup_old_files current_time [g]
        ++ cleanup_old_files current_time s₂) := by
  refine ⟨fun store f hmem hage => ?_, fun store f hmem hage hrem contra => ?_,
    fun s₁ g s₂ => ?_⟩
  · refine List.mem_filterMap.mpr ⟨f, hmem, ?_⟩
    unfold sweepFile
    rw [if_neg (not_lt.mpr hage)]
  · obtain ⟨a, _, ha⟩ := List.mem_filterMap.mp contra
    have := sweepFile_some_eq current_time a f ha
    subst this
    unfold sweepFile at ha
    rw [if_pos hage, if_pos hrem] at ha
    exact Option.noConfusion ha
  · simp only [cleanup_old_files, List.filterMap_append, List.append_assoc]
    cases hs : sweepFile current_time g <;>
      simp [List.filterMap_cons, hs]

/-- Witness for C5 with the spec scenario: at time 10000, a file of age
3599 is retained, and a removable file of age 3601 is deleted even though
an unremovable file of age 3601 sits before it in the listing. -/
theorem C5_eviction_witness :
    (⟨"fresh.png", 6401, true⟩ : StoredFile) ∈
      cleanup_old_files 10000
        [⟨"fresh.png", 6401, true⟩, ⟨"busy.png", 6399, false⟩,
         ⟨"old.png", 6399, true⟩] ∧
    (⟨"old.png", 6399, true⟩ : StoredFile) ∉
      cleanup_old_files 10000
        [⟨"fresh.png", 6401, true⟩, ⟨"busy.png", 6399, false⟩,
         ⟨"old.png", 6399, true⟩] :=
  ⟨(C5_eviction 10000).1 _ _ (by simp) (by norm_num),
   (C5_eviction 10000).2.1 _ _ (by simp) (by norm_num) rfl⟩

/-- Reduction helper: on a non-empty filename with the chart render
failing, the index route returns the try-again page and removes the
uploaded artifact. -/
theorem index_post_chart_failure (fname tok : String)
    (d : Except String Unit) (i : Except String ℚ) (hname : fname ≠ "") :
    index_post (some fname) tok d i false =
      ⟨.indexError "Error processing image. Please try again.", false⟩ := by
  simp only [index_post]
  rw [if_neg hname]
  rfl

/-- The claim of C6 formalised: on an invalid image (decode failure) the
index route degrades to the try-again error page and discards the
partially written upload artifact, rather than producing a diagnosis
result page. -/
def decodeFailureDegrades : Prop :=
  ∀ (e tok fname : String) (i : Except String ℚ), fname ≠ "" →
    (index_post (some fname) tok (.error e) i true).response
        = .indexError "Error processing image. Please try again." ∧
    (index_post (some fname) tok (.error e) i true).uploadSaved = false

/-- C6 counterexample: a decode failure on `scan.png` is swallowed by the
single handler inside `model_predict`, so the request renders a result
page with label `Error` and keeps the uploaded artifact, instead of the
claimed distinct try-again path. -/
theorem C6_counterexample : ¬ decodeFailureDegrades := by
  intro h
  have hc := (h "cannot identify image file" "20250101_120000_" "scan.png"
    (.ok 0) (by decide)).1
  have hr : (index_post (some "scan.png") "20250101_120000_"
      (.error "cannot identify image file") (.ok 0) true).response
      = .resultPage "Error" 0
          (uploadKey "20250101_120000_" "scan.png") := by
    simp only [index_post, model_predict]
    rw [if_neg (by decide : ¬ ("scan.png" = ""))]
    have h0 : pyRound2 0 = 0 := by simp [pyRound2, roundHalfEven]
    simp [h0]
  rw [hr] at hc
  exact Response.noConfusion hc

/-- C6 amended: decoding failure and classification failure share one
handler inside `model_predict`; an invalid image yields the same fallback
`("Error", 0.0, [0.5, 0.5])` as a classifier exception, and the request
renders an Error-labelled result page while retaining the uploaded
artifact — there is no distinct decode-error path. -/
theorem C6_amended (e tok fname : String) (i : Except String ℚ)
    (hname : fname ≠ "") :
    model_predict (.error e) i = model_predict (.ok ()) (.error e) ∧
    model_predict (.error e) i = ⟨"Error", 0, (1/2, 1/2)⟩ ∧
    (index_post (some fname) tok (.error e) i true).response
        = .resultPage "Error" 0 (uploadKey tok fname) ∧
    (index_post (some fname) tok (.error e) i true).uploadSaved = true := by
  refine ⟨rfl, rfl, ?_, ?_⟩
  · simp only [index_post, model_predict]
    rw [if_neg hname]
    have h0 : pyRound2 0 = 0 := by simp [pyRound2, roundHalfEven]
    simp [h0]
  · simp only [index_post, model_predict]
    rw [if_neg hname]
    simp

/-- Witness for C6 amended at a concrete decode error and filename. -/
theorem C6_amended_witness :
    model_predict (.error "bad image") (.ok 0)
      = model_predict (.ok ()) (.error "bad image") ∧
    model_predict (.error "bad image") (.ok 0) = ⟨"Error", 0, (1/2, 1/2)⟩ ∧
    (index_post (some "scan.png") "20250101_120000_" (.error "bad image")
        (.ok 0) true).response
      = .resultPage "Error" 0 (uploadKey "20250101_120000_" "scan.png") ∧
    (index_post (some "scan.png") "20250101_120000_" (.error "bad image")
        (.ok 0) true).uploadSaved = true :=
  C6_amended "bad image" "20250101_120000_" "scan.png" (.ok 0) (by decide)

/-- The claim of C7 formalised: when the chart render fails, the request
still returns the diagnosis — a result page carrying the predicted
label — to the caller. -/
def chartFailureStillReturnsDiagnosis : Prop :=
  ∀ (tok fname : String) (p : ℚ), fname ≠ "" →
    ∃ conf fn,
      (index_post (some fname) tok (.ok ()) (.ok p) false).response
        = .resultPage (model_predict (.ok ()) (.ok p)).prediction conf fn

/-- C7 counterexample: with `p = 0.92` and a failing chart render, the
index route returns the try-again error page (and deletes the upload),
not a result page with the diagnosis. -/
theorem C7_counterexample : ¬ chartFailureStillReturnsDiagnosis := by
  intro h
  obtain ⟨conf, fn, heq⟩ :=
    h "20250101_120000_" "scan.png" (92/100) (by decide)
  rw [index_post_chart_failure "scan.png" "20250101_120000_" (.ok ())
    (.ok (92/100)) (by decide)] at heq
  exact Response.noConfusion heq

/-- C7 amended: a chart-rendering failure is fatal to the upload request:
the outer exception handler returns the try-again error page and removes
the uploaded artifact, discarding the computed diagnosis. -/
theorem C7_amended (fname tok : String) (d : Except String Unit)
    (i : Except String ℚ) (hname : fname ≠ "") :
    (index_post (some fname) tok d i false).response
        = .indexError "Error processing image. Please try again." ∧
    (index_post (some fname) tok d i false).uploadSaved = false := by
  rw [index_post_chart_failure fname tok d i hname]
  exact ⟨rfl, rfl⟩

/-- Witness for C7 amended at a concrete request whose prediction
succeeded with `p = 0.92` but whose chart render failed. -/
theorem C7_amended_witness :
    (index_post (some "scan.png") "20250101_120000_" (.ok ())
        (.ok (92/100)) false).response
      = .indexError "Error processing image. Please try again." ∧
    (index_post (some "scan.png") "20250101_120000_" (.ok ())
        (.ok (92/100)) false).uploadSaved = false :=
  C7_amended "scan.png" "20250101_120000_" (.ok ()) (.ok (92/100))
    (by decide)

/-- The fixed recommendation bullet set of the Glaucoma branch of
`download_report` (lines 300-305 of `app.py`). -/
def urgentRecs : List String :=
  ["Schedule an urgent appointment with an eye specialist",
   "Early detection and treatment are crucial for preventing vision loss",
   "Bring this report to your ophthalmologist appointment",
   "Consider additional diagnostic tests (OCT, visual field testing)"]

/-- The fixed recommendation bullet set of the non-Glaucoma branch of
`download_report` (lines 313-318 of `app.py`). -/
def routineRecs : List String :=
  ["Continue regular eye examinations as recommended by your doctor",
   "Maintain a healthy lifestyle and protect your eyes",
   "Schedule routine check-ups every 1-2 years",
   "Report any sudden vision changes to your doctor immediately"]

/-- The label-dependent content of the PDF assembled by
`download_report()` (lines 189-379 of `app.py`): the status cell of the
results table, the confidence cell, the risk tier, and the
recommendations block.  `prediction` and `confidence` come from
`request.form.get(...)`, which yields `None` for a missing field, hence
`Option String`; Python string formatting renders `None` as `"None"`.
The header table, styling, and disclaimer are fixed text independent of
the inputs and are not modelled. -/
structure ReportContent where
  status : String
  confidenceCell : String
  risk : String
  recommendations : List String
  deriving DecidableEq, Repr

/-- The input-dependent part of `download_report()`: every branch tests
`prediction == "Glaucoma"` (lines 251, 264, 294); any other value,
including `None`, takes the healthy branch. -/
def download_report (prediction confidence : Option String) :
    ReportContent :=
  { status := if prediction = some "Glaucoma" then "Signs of Glaucoma Detected"
      else "No Signs of Glaucoma"
    confidenceCell := (match confidence with
      | some c => c
      | none => "None") ++ "%"
    risk := if prediction = some "Glaucoma" then "High" else "Low"
    recommendations := if prediction = some "Glaucoma" then urgentRecs
      else routineRecs }

/-- C8: the risk tier is "High" exactly when the label is "Glaucoma" and
"Low" otherwise, and the recommendations block is the urgent set exactly
when the label is "Glaucoma" and the routine set otherwise; the two
fixed sets are distinct. -/
theorem C8_risk_and_recommendations (prediction confidence : Option String) :
    ((download_report prediction confidence).risk = "High" ↔
      prediction = some "Glaucoma") ∧
    ((download_report prediction confidence).risk = "Low" ↔
      prediction ≠ some "Glaucoma") ∧
    ((download_report prediction confidence).recommendations = urgentRecs ↔
      prediction = some "Glaucoma") ∧
    ((download_report prediction confidence).recommendations = routineRecs ↔
      prediction ≠ some "Glaucoma") ∧
    urgentRecs ≠ routineRecs := by
  by_cases h : prediction = some "Glaucoma" <;>
    refine ⟨?_, ?_, ?_, ?_, by decide⟩ <;>
    simp [download_report, h, urgentRecs, routineRecs]

/-- C10: every prediction value other than the exact string "Glaucoma" —
including the failure label "Error" and a missing form field — takes the
healthy branch of the report: status "No Signs of Glaucoma", risk "Low",
routine recommendations. -/
theorem C10_non_glaucoma_healthy_branch
    (prediction confidence : Option String)
    (h : prediction ≠ some "Glaucoma") :
    (download_report prediction confidence).status = "No Signs of Glaucoma" ∧
    (download_report prediction confidence).risk = "Low" ∧
    (download_report prediction confidence).recommendations = routineRecs := by
  simp [download_report, h]

/-- Witness for C10 at the fallback label "Error" and at a missing
prediction field. -/
theorem C10_non_glaucoma_healthy_branch_witness :
    (download_report (some "Error") (some "0.0")).status
        = "No Signs of Glaucoma" ∧
    (download_report (some "Error") (some "0.0")).risk = "Low" ∧
    (download_report (some "Error") (some "0.0")).recommendations
        = routineRecs ∧
    (download_report none none).risk = "Low" :=
  ⟨(C10_non_glaucoma_healthy_branch (some "Error") (some "0.0")
      (by decide)).1,
   (C10_non_glaucoma_healthy_branch (some "Error") (some "0.0")
      (by decide)).2.1,
   (C10_non_glaucoma_healthy_branch (some "Error") (some "0.0")
      (by decide)).2.2,
   (C10_non_glaucoma_healthy_branch none none (by decide)).2.1⟩

end GlaucomaApp
